import Mathlib

/-!
A shallow embedding of the n8n Crono Public API node
(`nodes/CronoPublicApi/CronoPublicApi.node.ts` and
`credentials/CronoPublicApi.credentials.ts`).

JavaScript runtime values flowing through the node are modelled by `JValue`;
`IDataObject`s are association lists whose key-assignment (`setKey`) mirrors
JavaScript property assignment (replace in place, else append).  The n8n host
functions (`getNodeParameter`, `JSON.parse`, `parseInt`) are supplied through
an environment `Env`: `params` is the per-item parameter bag (`none` plays the
role of `undefined`) and `parse` is the platform JSON parser (`none` means the
parser throws).  Numeric parameters are modelled by integers; every numeric
field of the node is integer-valued.

The dispatcher (`executeItem`) translates the body of `execute` for one input
item.  Branches of the source that no claim touches (the create/update/import
body builders of company, contact, deal, note, task and the search builders of
contact, deal, note, activity) are marked by the explicit outcome
`DispatchOutcome.notModelled`; no theorem below evaluates the dispatcher on
such a branch.
-/

namespace Crono

/-- JavaScript/JSON runtime values. -/
inductive JValue where
  | null : JValue
  | bool : Bool → JValue
  | num  : Int → JValue
  | str  : String → JValue
  | arr  : List JValue → JValue
  | obj  : List (String × JValue) → JValue

mutual

/-- Structural equality test on `JValue` (deriving cannot handle the nested
inductive, so decidable equality is built by hand from this test). -/
def JValue.beq : JValue → JValue → Bool
  | .null, .null => true
  | .bool a, .bool b => a == b
  | .num a, .num b => a == b
  | .str a, .str b => a == b
  | .arr xs, .arr ys => JValue.beqList xs ys
  | .obj xs, .obj ys => JValue.beqPairs xs ys
  | _, _ => false

/-- Equality test on lists of values. -/
def JValue.beqList : List JValue → List JValue → Bool
  | [], [] => true
  | x :: xs, y :: ys => JValue.beq x y && JValue.beqList xs ys
  | _, _ => false

/-- Equality test on property lists. -/
def JValue.beqPairs : List (String × JValue) → List (String × JValue) → Bool
  | [], [] => true
  | (k, v) :: xs, (l, w) :: ys => k == l && JValue.beq v w && JValue.beqPairs xs ys
  | _, _ => false

end

mutual

theorem JValue.beq_refl : ∀ (a : JValue), JValue.beq a a = true
  | .null => rfl
  | .bool b => by simp [JValue.beq]
  | .num n => by simp [JValue.beq]
  | .str s => by simp [JValue.beq]
  | .arr xs => by simpa [JValue.beq] using JValue.beqList_refl xs
  | .obj xs => by simpa [JValue.beq] using JValue.beqPairs_refl xs

theorem JValue.beqList_refl : ∀ (xs : List JValue), JValue.beqList xs xs = true
  | [] => rfl
  | x :: xs => by
    simp only [JValue.beqList, Bool.and_eq_true]
    exact ⟨JValue.beq_refl x, JValue.beqList_refl xs⟩

theorem JValue.beqPairs_refl : ∀ (xs : List (String × JValue)),
    JValue.beqPairs xs xs = true
  | [] => rfl
  | (k, v) :: xs => by
    simp only [JValue.beqPairs, Bool.and_eq_true, beq_self_eq_true, true_and]
    exact ⟨JValue.beq_refl v, JValue.beqPairs_refl xs⟩

end

mutual

theorem JValue.beq_sound : ∀ (a b : JValue), JValue.beq a b = true → a = b
  | .null, .null, _ => rfl
  | .bool _, .bool _, h => by simp only [JValue.beq, beq_iff_eq] at h; rw [h]
  | .num _, .num _, h => by simp only [JValue.beq, beq_iff_eq] at h; rw [h]
  | .str _, .str _, h => by simp only [JValue.beq, beq_iff_eq] at h; rw [h]
  | .arr xs, .arr ys, h => by
    rw [JValue.beqList_sound xs ys (by simpa [JValue.beq] using h)]
  | .obj xs, .obj ys, h => by
    rw [JValue.beqPairs_sound xs ys (by simpa [JValue.beq] using h)]
  | .null, .bool _, h => nomatch h
  | .null, .num _, h => nomatch h
  | .null, .str _, h => nomatch h
  | .null, .arr _, h => nomatch h
  | .null, .obj _, h => nomatch h
  | .bool _, .null, h => nomatch h
  | .bool _, .num _, h => nomatch h
  | .bool _, .str _, h => nomatch h
  | .bool _, .arr _, h => nomatch h
  | .bool _, .obj _, h => nomatch h
  | .num _, .null, h => nomatch h
  | .num _, .bool _, h => nomatch h
  | .num _, .str _, h => nomatch h
  | .num _, .arr _, h => nomatch h
  | .num _, .obj _, h => nomatch h
  | .str _, .null, h => nomatch h
  | .str _, .bool _, h => nomatch h
  | .str _, .num _, h => nomatch h
  | .str _, .arr _, h => nomatch h
  | .str _, .obj _, h => nomatch h
  | .arr _, .null, h => nomatch h
  | .arr _, .bool _, h => nomatch h
  | .arr _, .num _, h => nomatch h
  | .arr _, .str _, h => nomatch h
  | .arr _, .obj _, h => nomatch h
  | .obj _, .null, h => nomatch h
  | .obj _, .bool _, h => nomatch h
  | .obj _, .num _, h => nomatch h
  | .obj _, .str _, h => nomatch h
  | .obj _, .arr _, h => nomatch h

theorem JValue.beqList_sound : ∀ (xs ys : List JValue),
    JValue.beqList xs ys = true → xs = ys
  | [], [], _ => rfl
  | x :: xs, y :: ys, h => by
    simp only [JValue.beqList, Bool.and_eq_true] at h
    rw [JValue.beq_sound x y h.1, JValue.beqList_sound xs ys h.2]
  | [], _ :: _, h => nomatch h
  | _ :: _, [], h => nomatch h

theorem JValue.beqPairs_sound : ∀ (xs ys : List (String × JValue)),
    JValue.beqPairs xs ys = true → xs = ys
  | [], [], _ => rfl
  | (k, v) :: xs, (l, w) :: ys, h => by
    simp only [JValue.beqPairs, Bool.and_eq_true, beq_iff_eq] at h
    rw [h.1.1, JValue.beq_sound v w h.1.2, JValue.beqPairs_sound xs ys h.2]
  | [], _ :: _, h => nomatch h
  | _ :: _, [], h => nomatch h

end

instance : DecidableEq JValue := fun a b =>
  if h : JValue.beq a b = true then .isTrue (JValue.beq_sound a b h)
  else .isFalse (fun he => h (he ▸ JValue.beq_refl a))

/-- An `IDataObject`: an ordered list of properties. -/
abbrev JObject := List (String × JValue)

/-- JavaScript property assignment `o[k] = v`: replace in place, else append. -/
def setKey : JObject → String → JValue → JObject
  | [], k, v => [(k, v)]
  | (k', v') :: rest, k, v =>
    if k' = k then (k, v) :: rest else (k', v') :: setKey rest k v

/-- Property lookup: first binding for the key, if any. -/
def getKey : JObject → String → Option JValue
  | [], _ => none
  | (k', v') :: rest, k => if k' = k then some v' else getKey rest k

/-- `Object.assign(target, src)`: assign every property of `src` onto `target`. -/
def objAssign (target : JObject) (src : JObject) : JObject :=
  src.foldl (fun acc kv => setKey acc kv.1 kv.2) target

/-- Own enumerable properties of a value, as used by object spread:
objects yield their properties, arrays and strings their indexed elements,
primitives nothing. -/
def jsEnumEntries : JValue → JObject
  | .obj o => o
  | .arr xs => xs.enum.map (fun p => (toString p.1, p.2))
  | .str s => s.data.enum.map (fun p => (toString p.1, JValue.str (String.mk [p.2])))
  | _ => []

/-- The object literal `{ ...a, ...b }`. -/
def spread2 (a b : JValue) : JValue :=
  .obj (objAssign (objAssign [] (jsEnumEntries a)) (jsEnumEntries b))

/-- `Object.keys`.  (The `null` case is unreachable in the translated code:
every call is guarded by a truthiness check or receives an object.) -/
def jsKeysOf : JValue → List String
  | .obj o => o.map Prod.fst
  | .arr xs => (List.range xs.length).map toString
  | .str s => (List.range s.length).map toString
  | _ => []

/-- JavaScript truthiness. -/
def jsTruthy : JValue → Bool
  | .null => false
  | .bool b => b
  | .num n => n != 0
  | .str s => s != ""
  | .arr _ => true
  | .obj _ => true

/-- `typeof v === 'object'` (true for objects, arrays and `null`). -/
def isObjectType : JValue → Bool
  | .obj _ => true
  | .arr _ => true
  | .null => true
  | _ => false

/-- Object-or-array test (the values `JSON.parse` can return that the node
keeps as parsed; `null` is excluded by the truthiness conjunct in the source). -/
def isObjLike : JValue → Bool
  | .obj _ => true
  | .arr _ => true
  | _ => false

/-- The TypeScript `as string` cast, as the node relies on it: the runtime
value of a string-typed parameter.  Non-strings are outside the UI schema's
contract; they are mapped to `""`. -/
def asString : JValue → String
  | .str s => s
  | _ => ""

/-- The `as number` cast: integer value of a number-typed parameter. -/
def asNum : JValue → Int
  | .num n => n
  | _ => 0

/-- The `as boolean` cast. -/
def asBool : JValue → Bool
  | .bool b => b
  | _ => false

/-- The `as string[]` cast. -/
def asArr : JValue → List JValue
  | .arr xs => xs
  | _ => []

/-- Property access `e.k` on an arbitrary value; `none` is `undefined`. -/
def jGetProp (v : JValue) (k : String) : Option JValue :=
  match v with
  | .obj o => getKey o k
  | _ => none

/-- Truthiness of a possibly-`undefined` value. -/
def jsTruthyOpt : Option JValue → Bool
  | none => false
  | some v => jsTruthy v

/-- Nullish coalescing `v ?? d`. -/
def nullishD : Option JValue → JValue → JValue
  | none, d => d
  | some .null, d => d
  | some v, _ => v

/-- The n8n host and platform collaborators for one input item:
the parameter bag (`none` = the parameter is undefined), the platform JSON
parser (`none` = `JSON.parse` throws), and the platform `parseInt` (whose
NaN result on digit-free input has no counterpart in `JValue`; no theorem
below constrains or reaches it). -/
structure Env where
  params : String → Option JValue
  parse : String → Option JValue
  parseIntJs : String → JValue

/-- `getNodeParameter(name, itemIndex, fallback)`. -/
def getParam (env : Env) (name : String) (fallback : JValue) : JValue :=
  (env.params name).getD fallback

/-- `getNodeParameter(name, itemIndex)` without a fallback; the host's
behaviour on a missing parameter is out of scope, every theorem supplies
the value. -/
def getParamReq (env : Env) (name : String) : JValue :=
  (env.params name).getD .null

/-- The two error kinds the node raises itself (`NodeOperationError`s). -/
inductive DispatchError where
  | invalidJson (parameterName : String) (itemIndex : Nat)
  | unsupportedResource (resource : String) (itemIndex : Nat)
deriving DecidableEq

/-- `getJsonParameter`: return the default on `''`/`undefined`/`null`;
JSON-parse strings, keeping the parsed value only when it is a truthy
object, and wrapping a parse failure in an error that names the parameter
and the item index; return non-string values unchanged. -/
def getJsonParameter (env : Env) (parameterName : String) (itemIndex : Nat)
    (defaultValue : JValue) : Except DispatchError JValue :=
  let value := getParam env parameterName defaultValue
  if value = .str "" ∨ value = .null then
    .ok defaultValue
  else
    match value with
    | .str s =>
      match env.parse s with
      | none => .error (.invalidJson parameterName itemIndex)
      | some parsed =>
        if jsTruthy parsed ∧ isObjectType parsed then .ok parsed
        else .ok (.str s)
    | v => .ok v

/-- `addIfNotEmpty`: assign the key unless the value is `null` or `''`
(the `undefined` disjunct of the source is subsumed here because every call
site passes a `getNodeParameter` result with a non-undefined fallback). -/
def addIfNotEmpty (target : JObject) (key : String) (value : JValue) : JObject :=
  if value = .null ∨ value = .str "" then target else setKey target key value

/-- The loop body of `getAdditionalFields`: entries whose `field` is not
truthy are skipped; otherwise `additional[entry.field] = entry.value ?? ''`. -/
def additionalFromEntries (entries : List JValue) : JObject :=
  entries.foldl
    (fun acc e =>
      let f := jGetProp e "field"
      if jsTruthyOpt f then
        setKey acc (asString (f.getD .null)) (nullishD (jGetProp e "value") (.str ""))
      else acc)
    []

/-- `getAdditionalFields`: read the entry list (default `[]`) and fold it
into a flat mapping. -/
def getAdditionalFields (env : Env) (parameterName : String) : JObject :=
  additionalFromEntries (asArr (getParam env parameterName (.arr [])))

/-- `parseCsv`: split on commas, trim, drop empty segments. -/
def parseCsv (value : String) : List String :=
  if value = "" then []
  else ((value.splitOn ",").map String.trim).filter (fun s => s.length ≠ 0)

/-- The request options `cronoApiRequest` hands to the HTTP helper. -/
structure HttpRequestOptions where
  method : String
  url : String
  json : Bool
  qs : Option JValue
  body : Option JValue
deriving DecidableEq

/-- `cronoApiRequest`: default the base URL, attach `qs` and `body` only when
truthy with at least one key. -/
def cronoApiRequest (credBaseUrl : String) (method : String) (endpoint : String)
    (qs : JValue) (body : Option JValue) : HttpRequestOptions :=
  let baseUrl := if credBaseUrl = "" then "https://ext.crono.one" else credBaseUrl
  let options : HttpRequestOptions :=
    { method := method, url := baseUrl ++ endpoint, json := true, qs := none, body := none }
  let options :=
    if jsTruthy qs ∧ (jsKeysOf qs).length ≠ 0 then { options with qs := some qs } else options
  match body with
  | some b =>
    if jsTruthy b ∧ (jsKeysOf b).length ≠ 0 then { options with body := some b } else options
  | none => options

/-- Truthiness of `v.length`: arrays and strings have a numeric length,
on every other value `.length` is `undefined`, hence falsy. -/
def jsLengthTruthy : JValue → Bool
  | .arr xs => xs.length != 0
  | .str s => s.length != 0
  | _ => false

/-- Property assignment `q.k = v` on a value known to the source as an
object (a no-op on primitives, as in JavaScript). -/
def jvSet (q : JValue) (k : String) (v : JValue) : JValue :=
  match q with
  | .obj o => .obj (setKey o k v)
  | other => other

/-- The request the dispatcher hands to `cronoApiRequest` for one item:
`body = none` is the `undefined` body of the source. -/
structure RequestSpec where
  method : String
  endpoint : String
  qs : JValue
  body : Option JValue
deriving DecidableEq

/-- The outcome of dispatching one item.  `notModelled` marks a branch that
exists in the source but is not translated here (the create/update/import
body builders and the search builders of contact, deal, note, activity);
no theorem in this file evaluates such a branch. -/
inductive DispatchOutcome where
  | ok (spec : RequestSpec)
  | err (e : DispatchError)
  | notModelled (resource operation : String)
deriving DecidableEq

/-- Propagate a thrown `NodeOperationError` out of a branch. -/
def ofExcept (r : Except DispatchError RequestSpec) : DispatchOutcome :=
  match r with
  | .ok s => .ok s
  | .error e => .err e

/-- The company `search` body: the raw-JSON override, or the structured
field-by-field construction, in source order. -/
def companySearchBodyE (env : Env) (i : Nat) (useRawJsonSearch : Bool) :
    Except DispatchError JValue :=
  if useRawJsonSearch then
    getJsonParameter env "search" i (.obj [])
  else do
    let sb : JObject := []
    let sb := addIfNotEmpty sb "Name" (getParam env "companySearchName" (.str ""))
    let status := getParam env "companySearchStatus" (.arr [])
    let sb := if jsLengthTruthy status then setKey sb "Status" status else sb
    let externalProperties ←
      getJsonParameter env "companySearchExternalProperties" i (.obj [])
    let sb :=
      if (jsKeysOf externalProperties).length ≠ 0 then
        setKey sb "ExternalProperties" externalProperties
      else sb
    let externalPropertyNumericFilters ←
      getJsonParameter env "companySearchExternalPropertyNumericFilters" i (.obj [])
    let sb :=
      if (jsKeysOf externalPropertyNumericFilters).length ≠ 0 then
        setKey sb "ExternalPropertyNumericFilters" externalPropertyNumericFilters
      else sb
    let externalPropertyEmptyIds :=
      parseCsv (asString (getParam env "companySearchExternalPropertyEmptyIds" (.str "")))
    let sb :=
      if externalPropertyEmptyIds.length ≠ 0 then
        setKey sb "ExternalPropertyEmptyIds"
          (.arr (externalPropertyEmptyIds.map (fun id => env.parseIntJs id)))
      else sb
    let sb := addIfNotEmpty sb "Industry" (getParam env "companySearchIndustry" (.str ""))
    let sb := addIfNotEmpty sb "Country" (getParam env "companySearchCountry" (.str ""))
    let numberOfEmployeesMin := getParam env "companySearchNumberOfEmployeesMin" (.num 0)
    let sb :=
      if jsTruthy numberOfEmployeesMin then
        setKey sb "NumberOfEmployeesMin" numberOfEmployeesMin
      else sb
    let numberOfEmployeesMax := getParam env "companySearchNumberOfEmployeesMax" (.num 0)
    let sb :=
      if jsTruthy numberOfEmployeesMax then
        setKey sb "NumberOfEmployeesMax" numberOfEmployeesMax
      else sb
    let sb :=
      addIfNotEmpty sb "CurrentSolution" (getParam env "companySearchCurrentSolution" (.str ""))
    let sb := addIfNotEmpty sb "UserId" (getParam env "companySearchUserId" (.str ""))
    let sb :=
      if jsTruthy (getParam env "companySearchNoUser" (.bool false)) then
        setKey sb "NoUser" (.bool true)
      else sb
    let sb :=
      addIfNotEmpty sb "CreatedDateMin" (getParam env "companySearchCreatedDateMin" (.str ""))
    let sb :=
      addIfNotEmpty sb "CreatedDateMax" (getParam env "companySearchCreatedDateMax" (.str ""))
    let sb :=
      addIfNotEmpty sb "LastActivityDateMin"
        (getParam env "companySearchLastActivityDateMin" (.str ""))
    let sb :=
      addIfNotEmpty sb "LastActivityDateMax"
        (getParam env "companySearchLastActivityDateMax" (.str ""))
    let sb :=
      addIfNotEmpty sb "LastModifiedDateMin"
        (getParam env "companySearchLastModifiedDateMin" (.str ""))
    let sb :=
      addIfNotEmpty sb "LastModifiedDateMax"
        (getParam env "companySearchLastModifiedDateMax" (.str ""))
    let sb :=
      if jsTruthy (getParam env "companySearchHasLinkedin" (.bool false)) then
        setKey sb "HasLinkedin" (.bool true)
      else sb
    let sb :=
      if jsTruthy (getParam env "companySearchHasWebsite" (.bool false)) then
        setKey sb "HasWebsite" (.bool true)
      else sb
    let sb :=
      if jsTruthy (getParam env "companySearchHasPhone" (.bool false)) then
        setKey sb "HasPhone" (.bool true)
      else sb
    let sb :=
      if jsTruthy (getParam env "companySearchHasActivities" (.bool false)) then
        setKey sb "HasActivities" (.bool true)
      else sb
    let sb :=
      if jsTruthy (getParam env "companySearchHasReplies" (.bool false)) then
        setKey sb "HasReplies" (.bool true)
      else sb
    let sb :=
      if jsTruthy (getParam env "companySearchHasActiveTasks" (.bool false)) then
        setKey sb "HasActiveTasks" (.bool true)
      else sb
    let sb :=
      if jsTruthy (getParam env "companySearchHasEmailsOpened" (.bool false)) then
        setKey sb "HasEmailsOpened" (.bool true)
      else sb
    let sb :=
      if jsTruthy (getParam env "companySearchHasClickedLinks" (.bool false)) then
        setKey sb "HasClickedLinks" (.bool true)
      else sb
    let cleanEmptyName := getParam env "companySearchCleanEmptyName" (.bool true)
    let sb := setKey sb "CleanEmptyName" cleanEmptyName
    let sb := addIfNotEmpty sb "Sort" (getParam env "companySearchSort" (.str ""))
    let includes : JObject := []
    let includes :=
      if jsTruthy (getParam env "companySearchIncludeExternalValuesNoTags" (.bool false)) then
        setKey includes "WithExternalValuesNoTags" (.bool true)
      else includes
    let includes :=
      if jsTruthy (getParam env "companySearchIncludeTags" (.bool false)) then
        setKey includes "WithTags" (.bool true)
      else includes
    let includes :=
      if jsTruthy (getParam env "companySearchIncludeTasks" (.bool false)) then
        setKey includes "WithTasks" (.bool true)
      else includes
    let sb := if includes.length ≠ 0 then setKey sb "Includes" (.obj includes) else sb
    let pagination : JObject := []
    let pagination :=
      addIfNotEmpty pagination "Limit" (getParam env "companySearchLimit" (.num 50))
    let pagination :=
      addIfNotEmpty pagination "Offset" (getParam env "companySearchOffset" (.num 0))
    let sb := if pagination.length ≠ 0 then setKey sb "Pagination" (.obj pagination) else sb
    let sb := objAssign sb (getAdditionalFields env "searchAdditionalFields")
    pure (.obj sb)

/-- The `company` branch of the dispatcher. -/
def companyCase (env : Env) (i : Nat) (operation basePath : String)
    (useRawJsonSearch : Bool) (qs0 : JValue) : DispatchOutcome :=
  let endpoint := basePath ++ "/Accounts"
  if operation = "get" then
    ofExcept (do
      let objectId := asString (getParamReq env "objectId")
      let inc ← getJsonParameter env "includeOptions" i (.obj [])
      pure { method := "GET", endpoint := endpoint ++ "/" ++ objectId, qs := inc, body := none })
  else if operation = "getAll" then
    ofExcept (do
      let inc ← getJsonParameter env "includeOptions" i (.obj [])
      pure { method := "GET", endpoint := endpoint, qs := spread2 qs0 inc, body := none })
  else if operation = "search" then
    ofExcept (do
      let b ← companySearchBodyE env i useRawJsonSearch
      pure { method := "POST", endpoint := endpoint ++ "/search", qs := qs0, body := some b })
  else if operation = "create" then .notModelled "company" "create"
  else if operation = "update" then .notModelled "company" "update"
  else if operation = "import" then .notModelled "company" "import"
  else .ok { method := "GET", endpoint := endpoint, qs := qs0, body := none }

/-- The `contact` branch (its search/create/update/import body builders are
outside the claims' scope). -/
def contactCase (env : Env) (i : Nat) (operation basePath : String)
    (qs0 : JValue) : DispatchOutcome :=
  let endpoint := basePath ++ "/Prospects"
  if operation = "get" then
    ofExcept (do
      let objectId := asString (getParamReq env "objectId")
      let inc ← getJsonParameter env "includeOptions" i (.obj [])
      pure { method := "GET", endpoint := endpoint ++ "/" ++ objectId, qs := inc, body := none })
  else if operation = "getAll" then
    ofExcept (do
      let inc ← getJsonParameter env "includeOptions" i (.obj [])
      pure { method := "GET", endpoint := endpoint, qs := spread2 qs0 inc, body := none })
  else if operation = "search" then .notModelled "contact" "search"
  else if operation = "create" then .notModelled "contact" "create"
  else if operation = "update" then .notModelled "contact" "update"
  else if operation = "import" then .notModelled "contact" "import"
  else .ok { method := "GET", endpoint := endpoint, qs := qs0, body := none }

/-- The `deal` branch. -/
def dealCase (env : Env) (i : Nat) (operation basePath : String)
    (qs0 : JValue) : DispatchOutcome :=
  let endpoint := basePath ++ "/Opportunities"
  if operation = "get" then
    ofExcept (do
      let objectId := asString (getParamReq env "objectId")
      let inc ← getJsonParameter env "includeOptions" i (.obj [])
      pure { method := "GET", endpoint := endpoint ++ "/" ++ objectId, qs := inc, body := none })
  else if operation = "getAll" then
    ofExcept (do
      let inc ← getJsonParameter env "includeOptions" i (.obj [])
      pure { method := "GET", endpoint := endpoint, qs := spread2 qs0 inc, body := none })
  else if operation = "search" then .notModelled "deal" "search"
  else if operation = "create" then .notModelled "deal" "create"
  else if operation = "update" then .notModelled "deal" "update"
  else .ok { method := "GET", endpoint := endpoint, qs := qs0, body := none }

/-- The `note` branch. -/
def noteCase (env : Env) (i : Nat) (operation basePath : String)
    (qs0 : JValue) : DispatchOutcome :=
  let endpoint := basePath ++ "/Notes"
  if operation = "get" then
    ofExcept (do
      let objectId := asString (getParamReq env "objectId")
      let inc ← getJsonParameter env "includeOptions" i (.obj [])
      pure { method := "GET", endpoint := endpoint ++ "/" ++ objectId, qs := inc, body := none })
  else if operation = "getAll" then
    ofExcept (do
      let inc ← getJsonParameter env "includeOptions" i (.obj [])
      pure { method := "GET", endpoint := endpoint, qs := spread2 qs0 inc, body := none })
  else if operation = "search" then .notModelled "note" "search"
  else if operation = "create" then .notModelled "note" "create"
  else .ok { method := "GET", endpoint := endpoint, qs := qs0, body := none }

/-- The task `search` body, in source order (`Limit` and `Offset` are
assigned unconditionally). -/
def taskSearchBodyE (env : Env) (i : Nat) (useRawJsonSearch : Bool) :
    Except DispatchError JValue :=
  if useRawJsonSearch then
    getJsonParameter env "search" i (.obj [])
  else do
    let sb : JObject := []
    let limit := getParam env "taskSearchLimit" (.num 50)
    let offset := getParam env "taskSearchOffset" (.num 0)
    let sb := setKey sb "Limit" limit
    let sb := setKey sb "Offset" offset
    let sb := addIfNotEmpty sb "Date" (getParam env "taskSearchDate" (.str ""))
    let sb := addIfNotEmpty sb "ProspectId" (getParam env "taskSearchProspectId" (.str ""))
    let sb := addIfNotEmpty sb "OpportunityId" (getParam env "taskSearchOpportunityId" (.str ""))
    let sb :=
      if jsTruthy (getParam env "taskSearchCompleted" (.bool false)) then
        setKey sb "Completed" (.bool true)
      else sb
    let sb := addIfNotEmpty sb "Type" (getParam env "taskSearchType" (.str ""))
    let sb := addIfNotEmpty sb "Subtype" (getParam env "taskSearchSubtype" (.str ""))
    let types := getParam env "taskSearchTypes" (.arr [])
    let sb := if jsLengthTruthy types then setKey sb "Types" types else sb
    let sb := addIfNotEmpty sb "Since" (getParam env "taskSearchSince" (.str ""))
    let sb := addIfNotEmpty sb "To" (getParam env "taskSearchTo" (.str ""))
    let sb :=
      if jsTruthy (getParam env "taskSearchAutomatic" (.bool false)) then
        setKey sb "Automatic" (.bool true)
      else sb
    let sb :=
      if jsTruthy (getParam env "taskSearchHasAutomationError" (.bool false)) then
        setKey sb "HasAutomationError" (.bool true)
      else sb
    let sb :=
      if jsTruthy (getParam env "taskSearchHasOpportunity" (.bool false)) then
        setKey sb "HasOpportunity" (.bool true)
      else sb
    let sb :=
      if jsTruthy (getParam env "taskSearchFromSequence" (.bool false)) then
        setKey sb "FromSequence" (.bool true)
      else sb
    let sb :=
      if jsTruthy (getParam env "taskSearchFromCrm" (.bool false)) then
        setKey sb "FromCrm" (.bool true)
      else sb
    let sb := addIfNotEmpty sb "AccountId" (getParam env "taskSearchAccountId" (.str ""))
    let prospectListId := getParam env "taskSearchProspectListId" (.num 0)
    let sb := if jsTruthy prospectListId then setKey sb "ProspectListId" prospectListId else sb
    let leadListId := getParam env "taskSearchLeadListId" (.num 0)
    let sb := if jsTruthy leadListId then setKey sb "LeadListId" leadListId else sb
    let accountListId := getParam env "taskSearchAccountListId" (.num 0)
    let sb := if jsTruthy accountListId then setKey sb "AccountListId" accountListId else sb
    let strategyId := getParam env "taskSearchStrategyId" (.num 0)
    let sb := if jsTruthy strategyId then setKey sb "StrategyId" strategyId else sb
    let sb := addIfNotEmpty sb "SortBy" (getParam env "taskSearchSortBy" (.str ""))
    let accountExternalProperties ←
      getJsonParameter env "taskSearchAccountExternalProperties" i (.obj [])
    let sb :=
      if (jsKeysOf accountExternalProperties).length ≠ 0 then
        setKey sb "AccountExternalProperties" accountExternalProperties
      else sb
    let prospectExternalProperties ←
      getJsonParameter env "taskSearchProspectExternalProperties" i (.obj [])
    let sb :=
      if (jsKeysOf prospectExternalProperties).length ≠ 0 then
        setKey sb "ProspectExternalProperties" prospectExternalProperties
      else sb
    let leadExternalProperties ←
      getJsonParameter env "taskSearchLeadExternalProperties" i (.obj [])
    let sb :=
      if (jsKeysOf leadExternalProperties).length ≠ 0 then
        setKey sb "LeadExternalProperties" leadExternalProperties
      else sb
    let sb := objAssign sb (getAdditionalFields env "searchAdditionalFields")
    pure (.obj sb)

/-- The `task` branch: `search` replaces the query string by the
`withOpportunities` flag; `create` is outside the claims' scope. -/
def taskCase (env : Env) (i : Nat) (operation basePath : String)
    (useRawJsonSearch : Bool) (qs0 : JValue) : DispatchOutcome :=
  let endpoint := basePath ++ "/Tasks"
  if operation = "search" then
    let withOpportunities := getParam env "withOpportunities" (.bool false)
    let qs :=
      if jsTruthy withOpportunities then JValue.obj [("withOpportunities", withOpportunities)]
      else JValue.obj []
    ofExcept (do
      let b ← taskSearchBodyE env i useRawJsonSearch
      pure { method := "POST", endpoint := endpoint ++ "/search", qs := qs, body := some b })
  else if operation = "create" then .notModelled "task" "create"
  else .ok { method := "GET", endpoint := endpoint, qs := qs0, body := none }

/-- The `activity` branch. -/
def activityCase (env : Env) (i : Nat) (operation basePath : String)
    (qs0 : JValue) : DispatchOutcome :=
  let endpoint := basePath ++ "/Activities"
  if operation = "get" then
    ofExcept (do
      let objectId := asString (getParamReq env "objectId")
      let inc ← getJsonParameter env "includeOptions" i (.obj [])
      pure { method := "GET", endpoint := endpoint ++ "/" ++ objectId, qs := inc, body := none })
  else if operation = "getAll" then
    ofExcept (do
      let inc ← getJsonParameter env "includeOptions" i (.obj [])
      pure { method := "GET", endpoint := endpoint, qs := spread2 qs0 inc, body := none })
  else if operation = "search" then .notModelled "activity" "search"
  else .ok { method := "GET", endpoint := endpoint, qs := qs0, body := none }

/-- The `list` branch: every operation issues the same POST search call. -/
def listCase (env : Env) (i : Nat) (useRawJsonSearch : Bool)
    (basePath : String) (qs0 : JValue) : DispatchOutcome :=
  let endpoint := basePath ++ "/CronoLists/search"
  ofExcept (do
    let b ←
      if useRawJsonSearch then
        getJsonParameter env "search" i (.obj [])
      else do
        let sb : JObject := []
        let sb := addIfNotEmpty sb "Name" (getParam env "listSearchName" (.str ""))
        let sb := addIfNotEmpty sb "AccountId" (getParam env "listSearchAccountId" (.str ""))
        let sb := addIfNotEmpty sb "ProspectId" (getParam env "listSearchProspectId" (.str ""))
        let strategyId := getParam env "listSearchStrategyId" (.num 0)
        let sb := if jsTruthy strategyId then setKey sb "StrategyId" strategyId else sb
        let templateId := getParam env "listSearchTemplateId" (.num 0)
        let sb := if jsTruthy templateId then setKey sb "TemplateId" templateId else sb
        let pagination : JObject := []
        let pagination :=
          addIfNotEmpty pagination "Limit" (getParam env "listSearchLimit" (.num 50))
        let pagination :=
          addIfNotEmpty pagination "Offset" (getParam env "listSearchOffset" (.num 0))
        let sb := if pagination.length ≠ 0 then setKey sb "Pagination" (.obj pagination) else sb
        let sb := addIfNotEmpty sb "Type" (getParam env "listSearchType" (.str "Account"))
        let sb := addIfNotEmpty sb "SortType" (getParam env "listSearchSortType" (.str ""))
        let sb := objAssign sb (getAdditionalFields env "searchAdditionalFields")
        pure (JValue.obj sb)
    pure { method := "POST", endpoint := endpoint, qs := qs0, body := some b })

/-- The `strategy` branch: POST to `/details` for `searchDetails`, to
`/search` for every other operation. -/
def strategyCase (env : Env) (i : Nat) (operation basePath : String)
    (useRawJsonSearch : Bool) (qs0 : JValue) : DispatchOutcome :=
  let endpoint :=
    basePath ++ "/Strategies/" ++ (if operation = "searchDetails" then "details" else "search")
  ofExcept (do
    let b ←
      if useRawJsonSearch then
        getJsonParameter env "search" i (.obj [])
      else if operation = "searchDetails" then do
        let sb : JObject := []
        let strategyId := getParam env "strategyDetailsStrategyId" (.num 0)
        let sb := setKey sb "StrategyId" strategyId
        let sb := addIfNotEmpty sb "Text" (getParam env "strategyDetailsText" (.str ""))
        let pagination : JObject := []
        let pagination :=
          addIfNotEmpty pagination "Limit" (getParam env "strategyDetailsLimit" (.num 50))
        let pagination :=
          addIfNotEmpty pagination "Offset" (getParam env "strategyDetailsOffset" (.num 0))
        let sb := if pagination.length ≠ 0 then setKey sb "Pagination" (.obj pagination) else sb
        let sb :=
          addIfNotEmpty sb "Sort" (getParam env "strategyDetailsSort" (.str "ContactsAsc"))
        let sb := addIfNotEmpty sb "Status" (getParam env "strategyDetailsStatus" (.str ""))
        let onlySpecificTask := getParam env "strategyDetailsOnlySpecificTask" (.arr [])
        let sb :=
          if jsLengthTruthy onlySpecificTask then setKey sb "OnlySpecificTask" onlySpecificTask
          else sb
        let sb :=
          if jsTruthy (getParam env "strategyDetailsOnlyMySequences" (.bool false)) then
            setKey sb "OnlyMySequences" (.bool true)
          else sb
        let sb :=
          if jsTruthy (getParam env "strategyDetailsOnlyMyProspects" (.bool false)) then
            setKey sb "OnlyMyProspects" (.bool true)
          else sb
        let sb := objAssign sb (getAdditionalFields env "searchAdditionalFields")
        pure (JValue.obj sb)
      else do
        let sb : JObject := []
        let sb := addIfNotEmpty sb "Name" (getParam env "strategySearchName" (.str ""))
        let sb := addIfNotEmpty sb "AccountId" (getParam env "strategySearchAccountId" (.str ""))
        let sb :=
          addIfNotEmpty sb "ProspectId" (getParam env "strategySearchProspectId" (.str ""))
        let sb := addIfNotEmpty sb "UserId" (getParam env "strategySearchUserId" (.str ""))
        let ids := parseCsv (asString (getParam env "strategySearchIds" (.str "")))
        let sb :=
          if ids.length ≠ 0 then setKey sb "Ids" (.arr (ids.map (fun id => JValue.str id)))
          else sb
        let pagination : JObject := []
        let pagination :=
          addIfNotEmpty pagination "Limit" (getParam env "strategySearchLimit" (.num 50))
        let pagination :=
          addIfNotEmpty pagination "Offset" (getParam env "strategySearchOffset" (.num 0))
        let sb := if pagination.length ≠ 0 then setKey sb "Pagination" (.obj pagination) else sb
        let sb := addIfNotEmpty sb "Sort" (getParam env "strategySearchSort" (.str ""))
        let strategyTags ← getJsonParameter env "strategySearchTags" i (.obj [])
        let sb :=
          if (jsKeysOf strategyTags).length ≠ 0 then setKey sb "StrategyTags" strategyTags
          else sb
        let includeOptions : JObject := []
        let includeOptions :=
          if jsTruthy (getParam env "strategySearchIncludeActiveSequenceInstances" (.bool false)) then
            setKey includeOptions "WithActiveSequenceInstances" (.bool true)
          else includeOptions
        let includeOptions :=
          if jsTruthy (getParam env "strategySearchIncludeAnalytics" (.bool false)) then
            setKey includeOptions "WithAnalytics" (.bool true)
          else includeOptions
        let includeOptions :=
          if jsTruthy (getParam env "strategySearchIncludeSequence" (.bool false)) then
            setKey includeOptions "WithSequence" (.bool true)
          else includeOptions
        let includeOptions :=
          if jsTruthy (getParam env "strategySearchIncludeUsers" (.bool false)) then
            setKey includeOptions "WithUsers" (.bool true)
          else includeOptions
        let sb :=
          if includeOptions.length ≠ 0 then setKey sb "IncludeOptions" (.obj includeOptions)
          else sb
        let sb := objAssign sb (getAdditionalFields env "searchAdditionalFields")
        pure (JValue.obj sb)
    pure { method := "POST", endpoint := endpoint, qs := qs0, body := some b })

/-- The `externalProperty` branch: always a POST search. -/
def externalPropertyCase (env : Env) (i : Nat) (useRawJsonSearch : Bool)
    (basePath : String) (qs0 : JValue) : DispatchOutcome :=
  let endpoint := basePath ++ "/ExternalProperties/search"
  ofExcept (do
    let b ←
      if useRawJsonSearch then
        getJsonParameter env "search" i (.obj [])
      else do
        let sb : JObject := []
        let sb :=
          addIfNotEmpty sb "TableType" (getParam env "externalPropertySearchTableType" (.str ""))
        let sb :=
          if jsTruthy (getParam env "externalPropertySearchOnlyInsert" (.bool false)) then
            setKey sb "OnlyInsert" (.bool true)
          else sb
        let sb :=
          if jsTruthy (getParam env "externalPropertySearchOnlyTag" (.bool false)) then
            setKey sb "OnlyTag" (.bool true)
          else sb
        let sb :=
          if jsTruthy (getParam env "externalPropertySearchWithLead" (.bool false)) then
            setKey sb "WithLead" (.bool true)
          else sb
        let sb :=
          if jsTruthy (getParam env "externalPropertySearchIsImported" (.bool false)) then
            setKey sb "IsImported" (.bool true)
          else sb
        let sb :=
          if jsTruthy (getParam env "externalPropertySearchIsStatus" (.bool false)) then
            setKey sb "IsStatus" (.bool true)
          else sb
        let sb :=
          if jsTruthy (getParam env "externalPropertySearchIsFilter" (.bool false)) then
            setKey sb "IsFilter" (.bool true)
          else sb
        let sb :=
          if jsTruthy (getParam env "externalPropertySearchOnlyAiVariables" (.bool false)) then
            setKey sb "OnlyAiVariables" (.bool true)
          else sb
        let sb := objAssign sb (getAdditionalFields env "searchAdditionalFields")
        pure (JValue.obj sb)
    pure { method := "POST", endpoint := endpoint, qs := qs0, body := some b })

/-- The `user` branch (its `get` never touches the query string). -/
def userCase (env : Env) (i : Nat) (operation basePath : String)
    (useRawJsonSearch : Bool) (qs0 : JValue) : DispatchOutcome :=
  let endpoint := basePath ++ "/Users"
  if operation = "get" then
    let userId := asString (getParamReq env "userId")
    .ok { method := "GET", endpoint := endpoint ++ "/" ++ userId, qs := qs0, body := none }
  else if operation = "getAll" then
    .ok { method := "GET", endpoint := endpoint, qs := qs0, body := none }
  else if operation = "search" then
    ofExcept (do
      let b ←
        if useRawJsonSearch then
          getJsonParameter env "search" i (.obj [])
        else do
          let sb : JObject := []
          let sb := addIfNotEmpty sb "Email" (getParam env "userSearchEmail" (.str ""))
          let sb :=
            if jsTruthy (getParam env "userSearchActive" (.bool false)) then
              setKey sb "Active" (.bool true)
            else sb
          let pagination : JObject := []
          let pagination :=
            addIfNotEmpty pagination "Limit" (getParam env "userSearchLimit" (.num 50))
          let pagination :=
            addIfNotEmpty pagination "Offset" (getParam env "userSearchOffset" (.num 0))
          let sb :=
            if pagination.length ≠ 0 then setKey sb "Pagination" (.obj pagination) else sb
          let sb := objAssign sb (getAdditionalFields env "searchAdditionalFields")
          pure (JValue.obj sb)
      pure { method := "POST", endpoint := endpoint ++ "/search", qs := qs0, body := some b })
  else .ok { method := "GET", endpoint := endpoint, qs := qs0, body := none }

/-- The `import` branch (its `get` never touches the query string; `getAll`
adds `type`/`statusType` to it only when truthy). -/
def importCase (env : Env) (operation basePath : String) (qs0 : JValue) : DispatchOutcome :=
  let endpoint := basePath ++ "/Import"
  if operation = "get" then
    let importId := asNum (getParamReq env "importId")
    .ok { method := "GET", endpoint := endpoint ++ "/" ++ toString importId, qs := qs0,
          body := none }
  else if operation = "getAll" then
    let importType := getParamReq env "importType"
    let importStatus := getParamReq env "importStatus"
    let qs := if jsTruthy importType then jvSet qs0 "type" importType else qs0
    let qs := if jsTruthy importStatus then jvSet qs "statusType" importStatus else qs
    .ok { method := "GET", endpoint := endpoint, qs := qs, body := none }
  else .ok { method := "GET", endpoint := endpoint, qs := qs0, body := none }

/-- The `resource` parameter of the item, as the string the switch sees. -/
def resourceOf (env : Env) : String := asString (getParamReq env "resource")

/-- The `operation` parameter of the item. -/
def opOf (env : Env) : String := asString (getParamReq env "operation")

/-- `basePath`, from the `apiVersion` parameter (default `'1'`). -/
def basePathOf (env : Env) : String :=
  "/api/v" ++ asString (getParam env "apiVersion" (.str "1"))

/-- The query string entering the switch: `{ limit, offset }` for `getAll`,
otherwise the empty object. -/
def initQs (env : Env) : JValue :=
  if opOf env = "getAll" then
    .obj [("limit", getParam env "limit" (.num 50)), ("offset", getParam env "offset" (.num 0))]
  else .obj []

/-- One iteration of the `execute` loop: read the shared parameters, build
the initial query string for `getAll`, then dispatch on the resource; an
unrecognized resource raises the descriptive error tagged with the item
index. -/
def executeItem (env : Env) (itemIndex : Nat) : DispatchOutcome :=
  let resource := resourceOf env
  let operation := opOf env
  let basePath := basePathOf env
  let useRawJsonSearch := asBool (getParam env "useRawJsonSearch" (.bool false))
  let qs0 : JValue := initQs env
  if resource = "company" then companyCase env itemIndex operation basePath useRawJsonSearch qs0
  else if resource = "contact" then contactCase env itemIndex operation basePath qs0
  else if resource = "deal" then dealCase env itemIndex operation basePath qs0
  else if resource = "note" then noteCase env itemIndex operation basePath qs0
  else if resource = "task" then taskCase env itemIndex operation basePath useRawJsonSearch qs0
  else if resource = "activity" then activityCase env itemIndex operation basePath qs0
  else if resource = "list" then listCase env itemIndex useRawJsonSearch basePath qs0
  else if resource = "pipeline" then
    .ok { method := "GET", endpoint := basePath ++ "/Pipelines", qs := qs0, body := none }
  else if resource = "strategy" then
    strategyCase env itemIndex operation basePath useRawJsonSearch qs0
  else if resource = "externalProperty" then
    externalPropertyCase env itemIndex useRawJsonSearch basePath qs0
  else if resource = "user" then userCase env itemIndex operation basePath useRawJsonSearch qs0
  else if resource = "import" then importCase env operation basePath qs0
  else .err (.unsupportedResource resource itemIndex)

/-! ### Concrete environments used by the theorems -/

/-- A parameter bag from an association list, with trivial platform oracles
(`JSON.parse` always throws, `parseInt` yields 0; no theorem input below
reaches either oracle unless it is overridden). -/
def envOf (ps : List (String × JValue)) : Env :=
  { params := fun n => List.lookup n ps,
    parse := fun _ => none,
    parseIntJs := fun _ => .num 0 }

/-- A parameter bag with an explicit JSON parser. -/
def envOfP (ps : List (String × JValue)) (parse : String → Option JValue) : Env :=
  { params := fun n => List.lookup n ps,
    parse := parse,
    parseIntJs := fun _ => .num 0 }

/-- The item whose scenario claim C3 describes. -/
def importGetAllEnv : Env := envOf
  [("resource", .str "import"), ("operation", .str "getAll"),
   ("importType", .str "Account"), ("importStatus", .str "")]

/-- Task search with the offset filter explicitly set to `0`. -/
def taskSearchZeroEnv : Env := envOf
  [("resource", .str "task"), ("operation", .str "search"),
   ("taskSearchOffset", .num 0)]

/-- Company search with the minimum-employees filter set to `n`. -/
def companyNumMinEnv (n : Int) : Env := envOf
  [("resource", .str "company"), ("operation", .str "search"),
   ("companySearchNumberOfEmployeesMin", .num n)]

/-- Task search with the offset filter set to `n`. -/
def taskOffsetEnv (n : Int) : Env := envOf
  [("resource", .str "task"), ("operation", .str "search"),
   ("taskSearchOffset", .num n)]

/-- Company search with the pagination offset explicitly set to `0`. -/
def companyZeroOffsetEnv : Env := envOf
  [("resource", .str "company"), ("operation", .str "search"),
   ("companySearchOffset", .num 0)]

/-- A JSON object literal (braces written as escapes) for include options. -/
def incOptsJson : String := "\x7b\x22withX\x22:true\x7d"

/-- The platform parser restricted to `incOptsJson`. -/
def parseInc : String → Option JValue :=
  fun s => if s = incOptsJson then some (.obj [("withX", .bool true)]) else none

/-- A nonempty additional-fields entry list, present to demonstrate that the
`get` operations ignore it. -/
def extraEntries : JValue :=
  .arr [.obj [("field", .str "Zz"), ("value", .str "1")]]

/-- A `get`-operation item for the given resource, carrying parseable
include options and nonempty additional-field entry lists. -/
def getEnvFor (resource idParam : String) (idVal : JValue) : Env := envOfP
  [("resource", .str resource), ("operation", .str "get"), (idParam, idVal),
   ("includeOptions", .str incOptsJson),
   ("searchAdditionalFields", extraEntries), ("dataAdditionalFields", extraEntries)]
  parseInc

/-- Company search with every body-level boolean filter set to `b` and the
clean-empty-name flag set to `c`. -/
def companyBoolsEnv (b c : Bool) : Env := envOf
  [("resource", .str "company"), ("operation", .str "search"),
   ("companySearchNoUser", .bool b), ("companySearchHasLinkedin", .bool b),
   ("companySearchHasWebsite", .bool b), ("companySearchHasPhone", .bool b),
   ("companySearchHasActivities", .bool b), ("companySearchHasReplies", .bool b),
   ("companySearchHasActiveTasks", .bool b), ("companySearchHasEmailsOpened", .bool b),
   ("companySearchHasClickedLinks", .bool b),
   ("companySearchIncludeExternalValuesNoTags", .bool b),
   ("companySearchIncludeTags", .bool b), ("companySearchIncludeTasks", .bool b),
   ("companySearchCleanEmptyName", .bool c)]

/-- Task search with every boolean filter set to `b`. -/
def taskBoolsEnv (b : Bool) : Env := envOf
  [("resource", .str "task"), ("operation", .str "search"),
   ("taskSearchCompleted", .bool b), ("taskSearchAutomatic", .bool b),
   ("taskSearchHasAutomationError", .bool b), ("taskSearchHasOpportunity", .bool b),
   ("taskSearchFromSequence", .bool b), ("taskSearchFromCrm", .bool b)]

/-- External-property search with every boolean filter set to `b`. -/
def externalPropertyBoolsEnv (b : Bool) : Env := envOf
  [("resource", .str "externalProperty"), ("operation", .str "search"),
   ("externalPropertySearchOnlyInsert", .bool b), ("externalPropertySearchOnlyTag", .bool b),
   ("externalPropertySearchWithLead", .bool b), ("externalPropertySearchIsImported", .bool b),
   ("externalPropertySearchIsStatus", .bool b), ("externalPropertySearchIsFilter", .bool b),
   ("externalPropertySearchOnlyAiVariables", .bool b)]

/-- A search item in raw-JSON mode whose structured name/id filters are
nevertheless populated, to exhibit their lack of influence. -/
def rawSearchEnv (resource : String) : Env := envOfP
  [("resource", .str resource), ("operation", .str "search"),
   ("useRawJsonSearch", .bool true), ("search", .str incOptsJson),
   ("companySearchName", .str "ignored"), ("taskSearchProspectId", .str "ignored")]
  parseInc

/-- Company search where the structured name filter says `A` and an
additional-fields entry says `Name ↦ B`. -/
def nameOverrideEnv : Env := envOf
  [("resource", .str "company"), ("operation", .str "search"),
   ("companySearchName", .str "A"),
   ("searchAdditionalFields", .arr [.obj [("field", .str "Name"), ("value", .str "B")]])]

/-- An item naming a resource outside the twelve. -/
def bogusEnv : Env := envOf [("resource", .str "noSuchResource")]

/-- A pipeline item (any operation; here `getAll`). -/
def pipelineEnv : Env := envOf
  [("resource", .str "pipeline"), ("operation", .str "getAll")]

/-- A task item with an operation outside the task branch's handled set. -/
def taskWeirdOpEnv : Env := envOf
  [("resource", .str "task"), ("operation", .str "frobnicate")]

/-- A list item dispatched under the unhandled operation `get`. -/
def listGetEnv : Env := envOf [("resource", .str "list"), ("operation", .str "get")]

/-- A strategy item dispatched under the unhandled operation `get`. -/
def strategyGetEnv : Env := envOf
  [("resource", .str "strategy"), ("operation", .str "get")]

/-- An external-property item dispatched under the unhandled operation `get`. -/
def epGetEnv : Env := envOf
  [("resource", .str "externalProperty"), ("operation", .str "get")]

/-- The request `listGetEnv` produces. -/
def listGetSpec : RequestSpec :=
  { method := "POST", endpoint := "/api/v1/CronoLists/search", qs := .obj [],
    body := some (.obj [("Pagination", .obj [("Limit", .num 50), ("Offset", .num 0)]),
                        ("Type", .str "Account")]) }

/-- The request `strategyGetEnv` produces. -/
def strategyGetSpec : RequestSpec :=
  { method := "POST", endpoint := "/api/v1/Strategies/search", qs := .obj [],
    body := some (.obj [("Pagination", .obj [("Limit", .num 50), ("Offset", .num 0)])]) }

/-- The request `epGetEnv` produces. -/
def epGetSpec : RequestSpec :=
  { method := "POST", endpoint := "/api/v1/ExternalProperties/search", qs := .obj [],
    body := some (.obj []) }

/-- An item bag holding one malformed JSON string, with a parser that
rejects everything. -/
def badJsonEnv : Env := envOfP [("q", .str "\x7binvalid")] (fun _ => none)

/-- An item bag holding a JSON string that parses to a bare number. -/
def numericJsonEnv : Env :=
  envOfP [("n", .str "42")] (fun s => if s = "42" then some (.num 42) else none)

/-! ### Helper lemmas -/

theorem cronoApiRequest_url (c m e : String) (q : JValue) (b : Option JValue) :
    (cronoApiRequest c m e q b).url =
      (if c = "" then "https://ext.crono.one" else c) ++ e := by
  cases b <;> simp [cronoApiRequest] <;> (repeat' split) <;> rfl

theorem cronoApiRequest_qs (c m e : String) (q : JValue) (b : Option JValue) :
    (cronoApiRequest c m e q b).qs =
      if jsTruthy q ∧ (jsKeysOf q).length ≠ 0 then some q else none := by
  cases b <;> simp [cronoApiRequest] <;> (repeat' split) <;> simp_all

theorem cronoApiRequest_body (c m e : String) (q : JValue) (b : Option JValue) :
    (cronoApiRequest c m e q b).body =
      match b with
      | some bb => if jsTruthy bb ∧ (jsKeysOf bb).length ≠ 0 then some bb else none
      | none => none := by
  cases b <;> simp [cronoApiRequest] <;> (repeat' split) <;> simp_all

/-- A fallible computation whose only possible failure is an invalid-JSON
error (the error kind `getJsonParameter` raises). -/
def invalidOnly {α : Type} (r : Except DispatchError α) : Prop :=
  ∀ e, r = .error e → ∃ q j, e = DispatchError.invalidJson q j

/-- An outcome that is not the unsupported-resource error. -/
def noUnsupported (o : DispatchOutcome) : Prop :=
  ∀ r j, o ≠ .err (.unsupportedResource r j)

theorem invalidOnly_pure {α : Type} (x : α) :
    invalidOnly (pure x : Except DispatchError α) := by
  intro e h; cases h

theorem invalidOnly_ok {α : Type} (x : α) :
    invalidOnly (Except.ok x : Except DispatchError α) := by
  intro e h; cases h

theorem invalidOnly_bind {α β : Type} {a : Except DispatchError α}
    {f : α → Except DispatchError β} (ha : invalidOnly a)
    (hf : ∀ x, invalidOnly (f x)) : invalidOnly (a >>= f) := by
  intro e h
  cases a with
  | error ea =>
    have : (Except.error ea : Except DispatchError α) >>= f = .error ea := rfl
    rw [this] at h
    obtain rfl : ea = e := Except.error.inj h
    exact ha ea rfl
  | ok x =>
    have : (Except.ok x : Except DispatchError α) >>= f = f x := rfl
    rw [this] at h
    exact hf x e h

theorem invalidOnly_map {α β : Type} (f : α → β) {a : Except DispatchError α}
    (ha : invalidOnly a) : invalidOnly (f <$> a) := by
  intro e h
  cases a with
  | error ea =>
    have : f <$> (Except.error ea : Except DispatchError α) = .error ea := rfl
    rw [this] at h
    obtain rfl : ea = e := Except.error.inj h
    exact ha ea rfl
  | ok x => cases h

theorem invalidOnly_getJson (env : Env) (p : String) (i : Nat) (d : JValue) :
    invalidOnly (getJsonParameter env p i d) := by
  intro e h
  simp only [getJsonParameter] at h
  split at h
  · cases h
  · split at h
    · split at h
      · exact ⟨p, i, ((Except.error.inj h)).symm⟩
      · split at h <;> cases h
    · cases h

theorem noUnsupported_ok (s : RequestSpec) : noUnsupported (.ok s) := by
  intro r j h; cases h

theorem noUnsupported_notModelled (a b : String) : noUnsupported (.notModelled a b) := by
  intro r j h; cases h

theorem noUnsupported_ofExcept {r : Except DispatchError RequestSpec}
    (hr : invalidOnly r) : noUnsupported (ofExcept r) := by
  intro a b h
  cases r with
  | ok s => cases h
  | error e =>
    obtain ⟨q, j, hq⟩ := hr e rfl
    have he : e = DispatchError.unsupportedResource a b := by
      have : ofExcept (Except.error e) = .err e := rfl
      rw [this] at h
      exact (DispatchOutcome.err.inj h)
    rw [hq] at he
    cases he

theorem invalidOnly_companySearchBodyE (env : Env) (i : Nat) (u : Bool) :
    invalidOnly (companySearchBodyE env i u) := by
  unfold companySearchBodyE
  split
  · exact invalidOnly_getJson env "search" i (.obj [])
  · apply invalidOnly_bind (invalidOnly_getJson _ _ _ _)
    intro x
    apply invalidOnly_bind (invalidOnly_getJson _ _ _ _)
    intro y
    exact invalidOnly_pure _

theorem invalidOnly_taskSearchBodyE (env : Env) (i : Nat) (u : Bool) :
    invalidOnly (taskSearchBodyE env i u) := by
  unfold taskSearchBodyE
  split
  · exact invalidOnly_getJson env "search" i (.obj [])
  · apply invalidOnly_bind (invalidOnly_getJson _ _ _ _)
    intro x
    apply invalidOnly_bind (invalidOnly_getJson _ _ _ _)
    intro y
    apply invalidOnly_bind (invalidOnly_getJson _ _ _ _)
    intro z
    exact invalidOnly_pure _

theorem noUnsupported_companyCase (env : Env) (i : Nat) (operation basePath : String)
    (u : Bool) (qs0 : JValue) :
    noUnsupported (companyCase env i operation basePath u qs0) := by
  unfold companyCase
  repeat' split
  all_goals first
    | exact noUnsupported_ok _
    | exact noUnsupported_notModelled _ _
    | (apply noUnsupported_ofExcept
       repeat first
         | exact invalidOnly_pure _
         | exact invalidOnly_getJson _ _ _ _
         | exact invalidOnly_companySearchBodyE _ _ _
         | apply invalidOnly_map
         | apply invalidOnly_bind
         | intro x
         | split)

theorem noUnsupported_contactCase (env : Env) (i : Nat) (operation basePath : String)
    (qs0 : JValue) : noUnsupported (contactCase env i operation basePath qs0) := by
  unfold contactCase
  repeat' split
  all_goals first
    | exact noUnsupported_ok _
    | exact noUnsupported_notModelled _ _
    | (apply noUnsupported_ofExcept
       repeat first
         | exact invalidOnly_pure _
         | exact invalidOnly_getJson _ _ _ _
         | apply invalidOnly_map
         | apply invalidOnly_bind
         | intro x
         | split)

theorem noUnsupported_dealCase (env : Env) (i : Nat) (operation basePath : String)
    (qs0 : JValue) : noUnsupported (dealCase env i operation basePath qs0) := by
  unfold dealCase
  repeat' split
  all_goals first
    | exact noUnsupported_ok _
    | exact noUnsupported_notModelled _ _
    | (apply noUnsupported_ofExcept
       repeat first
         | exact invalidOnly_pure _
         | exact invalidOnly_getJson _ _ _ _
         | apply invalidOnly_map
         | apply invalidOnly_bind
         | intro x
         | split)

theorem noUnsupported_noteCase (env : Env) (i : Nat) (operation basePath : String)
    (qs0 : JValue) : noUnsupported (noteCase env i operation basePath qs0) := by
  unfold noteCase
  repeat' split
  all_goals first
    | exact noUnsupported_ok _
    | exact noUnsupported_notModelled _ _
    | (apply noUnsupported_ofExcept
       repeat first
         | exact invalidOnly_pure _
         | exact invalidOnly_getJson _ _ _ _
         | apply invalidOnly_map
         | apply invalidOnly_bind
         | intro x
         | split)

theorem noUnsupported_taskCase (env : Env) (i : Nat) (operation basePath : String)
    (u : Bool) (qs0 : JValue) : noUnsupported (taskCase env i operation basePath u qs0) := by
  unfold taskCase
  repeat' split
  all_goals first
    | exact noUnsupported_ok _
    | exact noUnsupported_notModelled _ _
    | (apply noUnsupported_ofExcept
       repeat first
         | exact invalidOnly_pure _
         | exact invalidOnly_getJson _ _ _ _
         | exact invalidOnly_taskSearchBodyE _ _ _
         | apply invalidOnly_map
         | apply invalidOnly_bind
         | intro x
         | split)

theorem noUnsupported_activityCase (env : Env) (i : Nat) (operation basePath : String)
    (qs0 : JValue) : noUnsupported (activityCase env i operation basePath qs0) := by
  unfold activityCase
  repeat' split
  all_goals first
    | exact noUnsupported_ok _
    | exact noUnsupported_notModelled _ _
    | (apply noUnsupported_ofExcept
       repeat first
         | exact invalidOnly_pure _
         | exact invalidOnly_getJson _ _ _ _
         | apply invalidOnly_map
         | apply invalidOnly_bind
         | intro x
         | split)

theorem noUnsupported_listCase (env : Env) (i : Nat) (u : Bool) (basePath : String)
    (qs0 : JValue) : noUnsupported (listCase env i u basePath qs0) := by
  unfold listCase
  apply noUnsupported_ofExcept
  split
  · apply invalidOnly_bind (invalidOnly_getJson _ _ _ _); intro x; exact invalidOnly_pure _
  · apply invalidOnly_bind (invalidOnly_pure _); intro x; exact invalidOnly_pure _

theorem noUnsupported_strategyCase (env : Env) (i : Nat) (operation basePath : String)
    (u : Bool) (qs0 : JValue) :
    noUnsupported (strategyCase env i operation basePath u qs0) := by
  unfold strategyCase
  apply noUnsupported_ofExcept
  split
  all_goals split
  all_goals first
    | (apply invalidOnly_bind (invalidOnly_getJson _ _ _ _); intro x
       exact invalidOnly_pure _)
    | (apply invalidOnly_bind (invalidOnly_pure _); intro x; exact invalidOnly_pure _)

theorem noUnsupported_externalPropertyCase (env : Env) (i : Nat) (u : Bool)
    (basePath : String) (qs0 : JValue) :
    noUnsupported (externalPropertyCase env i u basePath qs0) := by
  unfold externalPropertyCase
  apply noUnsupported_ofExcept
  split
  · apply invalidOnly_bind (invalidOnly_getJson _ _ _ _); intro x; exact invalidOnly_pure _
  · apply invalidOnly_bind (invalidOnly_pure _); intro x; exact invalidOnly_pure _

theorem noUnsupported_userCase (env : Env) (i : Nat) (operation basePath : String)
    (u : Bool) (qs0 : JValue) : noUnsupported (userCase env i operation basePath u qs0) := by
  unfold userCase
  repeat' split
  all_goals first
    | exact noUnsupported_ok _
    | exact noUnsupported_notModelled _ _
    | (apply noUnsupported_ofExcept
       repeat first
         | exact invalidOnly_pure _
         | exact invalidOnly_getJson _ _ _ _
         | apply invalidOnly_map
         | apply invalidOnly_bind
         | intro x
         | split)

theorem noUnsupported_importCase (env : Env) (operation basePath : String)
    (qs0 : JValue) : noUnsupported (importCase env operation basePath qs0) := by
  unfold importCase
  repeat' split
  all_goals exact noUnsupported_ok _

/-- The twelve resources the dispatcher's switch enumerates. -/
def twelveResources : List String :=
  ["company", "contact", "deal", "note", "task", "activity", "list", "pipeline",
   "strategy", "externalProperty", "user", "import"]

/-- Statement vocabulary for the amended claim C8: for each dispatcher branch
that checks the operation, its guarded operations and its collection path
suffix. -/
def guardedTable : List (String × List String × String) :=
  [("company", (["get", "getAll", "search", "create", "update", "import"], "/Accounts")),
   ("contact", (["get", "getAll", "search", "create", "update", "import"], "/Prospects")),
   ("deal", (["get", "getAll", "search", "create", "update"], "/Opportunities")),
   ("note", (["get", "getAll", "search", "create"], "/Notes")),
   ("task", (["search", "create"], "/Tasks")),
   ("activity", (["get", "getAll", "search"], "/Activities")),
   ("user", (["get", "getAll", "search"], "/Users")),
   ("import", (["get", "getAll"], "/Import"))]

set_option maxHeartbeats 1000000 in
theorem executeItem_unsupported (env : Env) (i : Nat)
    (h : resourceOf env ∉ twelveResources) :
    executeItem env i = .err (.unsupportedResource (resourceOf env) i) := by
  simp only [twelveResources, List.mem_cons, List.not_mem_nil, or_false] at h
  push_neg at h
  obtain ⟨h1, h2, h3, h4, h5, h6, h7, h8, h9, h10, h11, h12⟩ := h
  simp only [executeItem, h1, h2, h3, h4, h5, h6, h7, h8, h9, h10, h11, h12,
    if_false, ite_false]

set_option maxHeartbeats 2000000 in
theorem executeItem_noUnsupported (env : Env) (i : Nat)
    (h : resourceOf env ∈ twelveResources) : noUnsupported (executeItem env i) := by
  simp only [twelveResources, List.mem_cons, List.not_mem_nil, or_false] at h
  rcases h with h | h | h | h | h | h | h | h | h | h | h | h <;>
    simp only [executeItem, h] <;>
    simp only [String.reduceEq, if_true, if_false, ite_true, ite_false, reduceIte] <;>
    first
      | exact noUnsupported_companyCase _ _ _ _ _ _
      | exact noUnsupported_contactCase _ _ _ _ _
      | exact noUnsupported_dealCase _ _ _ _ _
      | exact noUnsupported_noteCase _ _ _ _ _
      | exact noUnsupported_taskCase _ _ _ _ _ _
      | exact noUnsupported_activityCase _ _ _ _ _
      | exact noUnsupported_listCase _ _ _ _ _
      | exact noUnsupported_ok _
      | exact noUnsupported_strategyCase _ _ _ _ _ _
      | exact noUnsupported_externalPropertyCase _ _ _ _ _
      | exact noUnsupported_userCase _ _ _ _ _ _
      | exact noUnsupported_importCase _ _ _ _

theorem listCase_ok_shape (env : Env) (i : Nat) (u : Bool) (basePath : String)
    (qs0 : JValue) (spec : RequestSpec)
    (h : listCase env i u basePath qs0 = .ok spec) :
    spec.method = "POST" ∧ spec.endpoint = basePath ++ "/CronoLists/search" := by
  unfold listCase at h
  split at h
  · rcases hg : getJsonParameter env "search" i (.obj []) with e | v <;>
      rw [hg] at h <;>
      simp only [ofExcept, bind, Except.bind, pure, Except.pure] at h
    · cases h
    · injection h with h2; subst h2; exact ⟨rfl, rfl⟩
  · simp only [ofExcept, bind, Except.bind, pure, Except.pure] at h
    injection h with h2; subst h2; exact ⟨rfl, rfl⟩

theorem strategyCase_ok_shape (env : Env) (i : Nat) (operation basePath : String)
    (u : Bool) (qs0 : JValue) (spec : RequestSpec)
    (h : strategyCase env i operation basePath u qs0 = .ok spec) :
    spec.method = "POST" ∧
      spec.endpoint = basePath ++ "/Strategies/" ++
        (if operation = "searchDetails" then "details" else "search") := by
  unfold strategyCase at h
  split at h <;> rename_i hop <;> split at h <;> rename_i hu
  · rcases hg : getJsonParameter env "search" i (.obj []) with e | v <;> rw [hg] at h <;>
      simp only [ofExcept, bind, Except.bind, pure, Except.pure] at h
    · cases h
    · injection h with h2; subst h2; simp [hop]
  · simp only [ofExcept, bind, Except.bind, pure, Except.pure] at h
    injection h with h2; subst h2; simp [hop]
  · rcases hg : getJsonParameter env "search" i (.obj []) with e | v <;> rw [hg] at h <;>
      simp only [ofExcept, bind, Except.bind, pure, Except.pure] at h
    · cases h
    · injection h with h2; subst h2; simp [hop]
  · rcases hg : getJsonParameter env "strategySearchTags" i (.obj []) with e | v <;>
      rw [hg] at h <;>
      simp only [ofExcept, bind, Except.bind, pure, Except.pure] at h
    · cases h
    · injection h with h2; subst h2; simp [hop]

theorem externalPropertyCase_ok_shape (env : Env) (i : Nat) (u : Bool)
    (basePath : String) (qs0 : JValue) (spec : RequestSpec)
    (h : externalPropertyCase env i u basePath qs0 = .ok spec) :
    spec.method = "POST" ∧ spec.endpoint = basePath ++ "/ExternalProperties/search" := by
  unfold externalPropertyCase at h
  split at h
  · rcases hg : getJsonParameter env "search" i (.obj []) with e | v <;>
      rw [hg] at h <;>
      simp only [ofExcept, bind, Except.bind, pure, Except.pure] at h
    · cases h
    · injection h with h2; subst h2; exact ⟨rfl, rfl⟩
  · simp only [ofExcept, bind, Except.bind, pure, Except.pure] at h
    injection h with h2; subst h2; exact ⟨rfl, rfl⟩

set_option maxHeartbeats 2000000 in
theorem executeItem_fallthrough (env : Env) (i : Nat) (r : String)
    (ops : List String) (coll : String)
    (hmem : (r, (ops, coll)) ∈ guardedTable) (hr : resourceOf env = r)
    (hop : opOf env ∉ ops) :
    executeItem env i =
      .ok { method := "GET", endpoint := basePathOf env ++ coll, qs := initQs env,
            body := none } := by
  simp only [guardedTable, List.mem_cons, List.not_mem_nil, or_false] at hmem
  rcases hmem with h | h | h | h | h | h | h | h <;>
    (simp only [Prod.mk.injEq] at h; obtain ⟨rfl, rfl, rfl⟩ := h) <;>
    (simp only [List.mem_cons, List.not_mem_nil, or_false] at hop; push_neg at hop) <;>
    simp [executeItem, companyCase, contactCase, dealCase, noteCase, taskCase,
      activityCase, userCase, importCase, hr, hop]


theorem getKey_setKey_self (o : JObject) (k : String) (v : JValue) :
    getKey (setKey o k v) k = some v := by
  induction o with
  | nil => simp [setKey, getKey]
  | cons kv rest ih =>
    obtain ⟨k', v'⟩ := kv
    by_cases h : k' = k
    · simp [setKey, getKey, h]
    · simp [setKey, getKey, h, ih]

/-! ### Claim theorems -/

/-- C1, counterexample: with the task-search offset field set to `0` — a
numeric filter field whose default is `0` — the constructed body carries the
key `Offset` with value `0`; the key is not absent, so the claimed omission
of zero-valued numeric filter fields fails on the task-search offset. -/
theorem C1_counterexample :
    ∃ b, executeItem taskSearchZeroEnv 0 =
        .ok { method := "POST", endpoint := "/api/v1/Tasks/search", qs := .obj [],
              body := some (.obj b) } ∧
      getKey b "Offset" = some (.num 0) :=
  ⟨_, rfl, rfl⟩

/-- C1, amended: numeric filter fields guarded by a truthiness check (here
the company-search minimum-employees filter) omit the key on `0` and set it
to the number on any nonzero input; but the task-search `Limit`/`Offset`
pair is written to the body unconditionally (`0` included), and numeric
fields routed through the add-if-not-empty predicate (the `Pagination`
sub-object's `Limit`/`Offset`) keep an explicit `0`, because that predicate
only drops `undefined`/`null`/empty-string. -/
theorem C1_amended :
    (∀ n : Int, ∃ b, executeItem (companyNumMinEnv n) 0 =
        .ok { method := "POST", endpoint := "/api/v1/Accounts/search", qs := .obj [],
              body := some (.obj b) } ∧
      getKey b "NumberOfEmployeesMin" = (if n = 0 then none else some (.num n))) ∧
    (∀ n : Int, executeItem (taskOffsetEnv n) 0 =
        .ok { method := "POST", endpoint := "/api/v1/Tasks/search", qs := .obj [],
              body := some (.obj [("Limit", .num 50), ("Offset", .num n)]) }) ∧
    (∃ b, executeItem companyZeroOffsetEnv 0 =
        .ok { method := "POST", endpoint := "/api/v1/Accounts/search", qs := .obj [],
              body := some (.obj b) } ∧
      getKey b "Pagination" = some (.obj [("Limit", .num 50), ("Offset", .num 0)])) := by
  refine ⟨fun n => ?_, fun n => rfl, ⟨_, rfl, rfl⟩⟩
  by_cases hn : n = 0
  · subst hn; exact ⟨_, rfl, rfl⟩
  · refine ⟨[("NumberOfEmployeesMin", .num n), ("CleanEmptyName", .bool true),
             ("Pagination", .obj [("Limit", .num 50), ("Offset", .num 0)])], ?_, ?_⟩
    · simp [executeItem, resourceOf, opOf, basePathOf, initQs, companyCase,
        companySearchBodyE, companyNumMinEnv, envOf, getParam, getParamReq,
        getJsonParameter, addIfNotEmpty, setKey, jsTruthy, jsLengthTruthy, jsKeysOf,
        asString, asBool, asArr, parseCsv, getAdditionalFields, additionalFromEntries,
        objAssign, ofExcept, List.lookup, Option.getD, bind, Except.bind, pure,
        Except.pure, Functor.map, Except.map, hn]
    · simp [getKey, hn]

/-- C2, counterexample: a `user` `get` item whose include-options field
parses to the mapping `withX ↦ true`; the produced request's query mapping
is the empty object, not the parsed include options, so the claimed
forwarding fails for the `user` resource. -/
theorem C2_counterexample :
    executeItem (getEnvFor "user" "userId" (.str "7")) 0 =
      .ok { method := "GET", endpoint := "/api/v1/Users/7", qs := .obj [], body := none } ∧
    getJsonParameter (getEnvFor "user" "userId" (.str "7")) "includeOptions" 0 (.obj []) =
      .ok (.obj [("withX", .bool true)]) ∧
    JValue.obj [] ≠ JValue.obj [("withX", .bool true)] :=
  ⟨rfl, rfl, by decide⟩

/-- C2, amended: the `get` operations of company, contact, deal, note and
activity forward the parsed include-options JSON as the query mapping, while
those of user and import leave the query mapping empty (include options
ignored); none of the seven builds a body, so the Additional-Fields merge is
never applied — each environment below carries a nonempty additional-field
entry list, and it leaves the produced request untouched. -/
theorem C2_amended :
    (executeItem (getEnvFor "company" "objectId" (.str "7")) 0 =
      .ok { method := "GET", endpoint := "/api/v1/Accounts/7",
            qs := .obj [("withX", .bool true)], body := none }) ∧
    (executeItem (getEnvFor "contact" "objectId" (.str "7")) 0 =
      .ok { method := "GET", endpoint := "/api/v1/Prospects/7",
            qs := .obj [("withX", .bool true)], body := none }) ∧
    (executeItem (getEnvFor "deal" "objectId" (.str "7")) 0 =
      .ok { method := "GET", endpoint := "/api/v1/Opportunities/7",
            qs := .obj [("withX", .bool true)], body := none }) ∧
    (executeItem (getEnvFor "note" "objectId" (.str "7")) 0 =
      .ok { method := "GET", endpoint := "/api/v1/Notes/7",
            qs := .obj [("withX", .bool true)], body := none }) ∧
    (executeItem (getEnvFor "activity" "objectId" (.str "7")) 0 =
      .ok { method := "GET", endpoint := "/api/v1/Activities/7",
            qs := .obj [("withX", .bool true)], body := none }) ∧
    (executeItem (getEnvFor "user" "userId" (.str "8")) 0 =
      .ok { method := "GET", endpoint := "/api/v1/Users/8", qs := .obj [], body := none }) ∧
    (executeItem (getEnvFor "import" "importId" (.num 9)) 0 =
      .ok { method := "GET", endpoint := "/api/v1/Import/9", qs := .obj [], body := none }) :=
  ⟨rfl, rfl, rfl, rfl, rfl, rfl, rfl⟩

/-- C3: for resource `import`, operation `getAll`, import type `Account` and
empty import status, the dispatcher issues a GET to `/api/v1/Import` whose
query mapping binds `type` to `Account` and has no `statusType` key. -/
theorem C3_import_getall_query :
    ∃ q, executeItem importGetAllEnv 0 =
        .ok { method := "GET", endpoint := "/api/v1/Import", qs := .obj q, body := none } ∧
      getKey q "type" = some (.str "Account") ∧ getKey q "statusType" = none :=
  ⟨_, rfl, rfl, rfl⟩

/-- C4: every boolean body filter of the company, task and external-property
search builders is omitted on `false` and written as `true` on `true` (the
company `Includes` sub-object exists exactly when its flags do), with the
single exception of the clean-empty-name field, whose value is always
written to `CleanEmptyName`, whether `true` or `false`. -/
theorem C4_boolean_fields :
    (∀ b c : Bool, ∃ body, executeItem (companyBoolsEnv b c) 0 =
        .ok { method := "POST", endpoint := "/api/v1/Accounts/search", qs := .obj [],
              body := some (.obj body) } ∧
      (∀ k ∈ ["NoUser", "HasLinkedin", "HasWebsite", "HasPhone", "HasActivities",
              "HasReplies", "HasActiveTasks", "HasEmailsOpened", "HasClickedLinks"],
        getKey body k = if b then some (.bool true) else none) ∧
      (getKey body "Includes" =
        if b then
          some (.obj [("WithExternalValuesNoTags", .bool true), ("WithTags", .bool true),
                      ("WithTasks", .bool true)])
        else none) ∧
      getKey body "CleanEmptyName" = some (.bool c)) ∧
    (∀ b : Bool, ∃ body, executeItem (taskBoolsEnv b) 0 =
        .ok { method := "POST", endpoint := "/api/v1/Tasks/search", qs := .obj [],
              body := some (.obj body) } ∧
      (∀ k ∈ ["Completed", "Automatic", "HasAutomationError", "HasOpportunity",
              "FromSequence", "FromCrm"],
        getKey body k = if b then some (.bool true) else none)) ∧
    (∀ b : Bool, ∃ body, executeItem (externalPropertyBoolsEnv b) 0 =
        .ok { method := "POST", endpoint := "/api/v1/ExternalProperties/search",
              qs := .obj [], body := some (.obj body) } ∧
      (∀ k ∈ ["OnlyInsert", "OnlyTag", "WithLead", "IsImported", "IsStatus",
              "IsFilter", "OnlyAiVariables"],
        getKey body k = if b then some (.bool true) else none)) := by
  refine ⟨fun b c => ?_, fun b => ?_, fun b => ?_⟩
  · cases b <;> cases c <;> exact ⟨_, rfl, by decide, rfl, rfl⟩
  · cases b <;> exact ⟨_, rfl, by decide⟩
  · cases b <;> exact ⟨_, rfl, by decide⟩

/-- C5: when the raw-JSON search toggle is set and the search field holds a
valid JSON object string (`s` parsing to the object `o`), the request body
is exactly the parsed object, whatever values every structured search field
holds — shown for the company and task search branches of the dispatcher,
over an otherwise arbitrary parameter bag. -/
theorem C5_raw_json_roundtrip :
    (∀ (env : Env) (i : Nat) (s : String) (o : JObject),
      env.params "apiVersion" = none →
      env.params "resource" = some (.str "company") →
      env.params "operation" = some (.str "search") →
      env.params "useRawJsonSearch" = some (.bool true) →
      env.params "search" = some (.str s) → s ≠ "" →
      env.parse s = some (.obj o) →
      executeItem env i =
        .ok { method := "POST", endpoint := "/api/v1/Accounts/search", qs := .obj [],
              body := some (.obj o) }) ∧
    (∀ (env : Env) (i : Nat) (s : String) (o : JObject),
      env.params "apiVersion" = none →
      env.params "resource" = some (.str "task") →
      env.params "operation" = some (.str "search") →
      env.params "useRawJsonSearch" = some (.bool true) →
      env.params "withOpportunities" = none →
      env.params "search" = some (.str s) → s ≠ "" →
      env.parse s = some (.obj o) →
      executeItem env i =
        .ok { method := "POST", endpoint := "/api/v1/Tasks/search", qs := .obj [],
              body := some (.obj o) }) := by
  constructor
  · intro env i s o h0 h1 h2 h3 h4 hs hp
    simp [executeItem, resourceOf, opOf, basePathOf, initQs, companyCase,
      companySearchBodyE, getJsonParameter, getParam, getParamReq, asString, asBool,
      ofExcept, jsTruthy, isObjectType, h0, h1, h2, h3, h4, hs, hp]
  · intro env i s o h0 h1 h2 h3 h4 h5 hs hp
    simp [executeItem, resourceOf, opOf, basePathOf, initQs, taskCase,
      taskSearchBodyE, getJsonParameter, getParam, getParamReq, asString, asBool,
      ofExcept, jsTruthy, isObjectType, h0, h1, h2, h3, h4, h5, hs, hp]

/-- C5 witness: both raw-JSON round-trip statements applied to a concrete
item whose search string parses to `withX ↦ true` while structured filters
are populated. -/
theorem C5_raw_json_roundtrip_witness :
    executeItem (rawSearchEnv "company") 0 =
      .ok { method := "POST", endpoint := "/api/v1/Accounts/search", qs := .obj [],
            body := some (.obj [("withX", .bool true)]) } ∧
    executeItem (rawSearchEnv "task") 0 =
      .ok { method := "POST", endpoint := "/api/v1/Tasks/search", qs := .obj [],
            body := some (.obj [("withX", .bool true)]) } :=
  ⟨C5_raw_json_roundtrip.1 (rawSearchEnv "company") 0 incOptsJson [("withX", .bool true)]
      rfl rfl rfl rfl rfl (by decide) rfl,
   C5_raw_json_roundtrip.2 (rawSearchEnv "task") 0 incOptsJson [("withX", .bool true)]
      rfl rfl rfl rfl rfl rfl (by decide) rfl⟩

/-- C6: the additional-fields merger skips every entry whose `field` is not
a truthy value, maps the last entry for a field name to its value — an
absent `value` becoming the empty string — and is merged after the
structured fields, so a structured `Name = A` is overwritten by an entry
`field: Name, value: B`. -/
theorem C6_additional_fields_merge :
    (∀ (es : List JValue) (e : JValue), jsTruthyOpt (jGetProp e "field") = false →
      additionalFromEntries (es ++ [e]) = additionalFromEntries es) ∧
    (∀ (es : List JValue) (f v : String), f ≠ "" →
      getKey (additionalFromEntries
          (es ++ [.obj [("field", .str f), ("value", .str v)]])) f = some (.str v)) ∧
    (∀ (es : List JValue) (f : String), f ≠ "" →
      getKey (additionalFromEntries (es ++ [.obj [("field", .str f)]])) f =
        some (.str "")) ∧
    (∃ b, executeItem nameOverrideEnv 0 =
        .ok { method := "POST", endpoint := "/api/v1/Accounts/search", qs := .obj [],
              body := some (.obj b) } ∧
      getKey b "Name" = some (.str "B")) := by
  refine ⟨fun es e h => ?_, fun es f v hf => ?_, fun es f hf => ?_, ⟨_, rfl, rfl⟩⟩
  · simp [additionalFromEntries, List.foldl_append, h]
  · simp [additionalFromEntries, List.foldl_append, jGetProp, getKey, jsTruthyOpt,
      jsTruthy, hf, asString, nullishD, getKey_setKey_self]
  · simp [additionalFromEntries, List.foldl_append, jGetProp, getKey, jsTruthyOpt,
      jsTruthy, hf, asString, nullishD, getKey_setKey_self]

/-- C6 witness: the three quantified merger statements applied to concrete
entry lists — a fieldless entry is skipped, an entry for `K` overwrites an
earlier one, and an entry without a value maps to the empty string. -/
theorem C6_additional_fields_merge_witness :
    additionalFromEntries
        ([JValue.obj [("field", .str "X"), ("value", .str "1")]] ++ [JValue.obj []]) =
      additionalFromEntries [JValue.obj [("field", .str "X"), ("value", .str "1")]] ∧
    getKey (additionalFromEntries
        ([JValue.obj [("field", .str "K"), ("value", .str "old")]] ++
          [JValue.obj [("field", .str "K"), ("value", .str "V")]])) "K" =
      some (.str "V") ∧
    getKey (additionalFromEntries ([] ++ [JValue.obj [("field", .str "K")]])) "K" =
      some (.str "") :=
  ⟨C6_additional_fields_merge.1 [JValue.obj [("field", .str "X"), ("value", .str "1")]]
      (JValue.obj []) rfl,
   C6_additional_fields_merge.2.1 [JValue.obj [("field", .str "K"), ("value", .str "old")]]
      "K" "V" (by decide),
   C6_additional_fields_merge.2.2.1 [] "K" (by decide)⟩

/-- C7: a JSON-typed parameter read yields the (object) default when the raw
value is `undefined`, `null` or the empty string — for every parser, so an
empty string is never parsed — and a string the parser rejects raises the
error naming that parameter and carrying the item index. -/
theorem C7_json_parameter_edges :
    (∀ (env : Env) (p : String) (i : Nat) (od : JObject),
      env.params p = none → getJsonParameter env p i (.obj od) = .ok (.obj od)) ∧
    (∀ (env : Env) (p : String) (i : Nat) (od : JObject),
      env.params p = some .null → getJsonParameter env p i (.obj od) = .ok (.obj od)) ∧
    (∀ (env : Env) (p : String) (i : Nat) (od : JObject),
      env.params p = some (.str "") → getJsonParameter env p i (.obj od) = .ok (.obj od)) ∧
    (∀ (env : Env) (p : String) (i : Nat) (d : JValue) (s : String),
      env.params p = some (.str s) → s ≠ "" → env.parse s = none →
      getJsonParameter env p i d = .error (.invalidJson p i)) := by
  refine ⟨fun env p i od h => ?_, fun env p i od h => ?_, fun env p i od h => ?_,
    fun env p i d s h hs hp => ?_⟩
  · simp [getJsonParameter, getParam, h]
  · simp [getJsonParameter, getParam, h]
  · simp [getJsonParameter, getParam, h]
  · simp [getJsonParameter, getParam, h, hs, hp]

/-- C7 witness: the four edge statements applied to a concrete item bag with
a parameter holding malformed JSON and a parser that rejects it. -/
theorem C7_json_parameter_edges_witness :
    getJsonParameter badJsonEnv "missing" 3 (.obj [("d", .num 1)]) =
      .ok (.obj [("d", .num 1)]) ∧
    getJsonParameter (envOf [("p", .null)]) "p" 3 (.obj []) = .ok (.obj []) ∧
    getJsonParameter (envOf [("p", .str "")]) "p" 3 (.obj []) = .ok (.obj []) ∧
    getJsonParameter badJsonEnv "q" 3 (.obj []) = .error (.invalidJson "q" 3) :=
  ⟨C7_json_parameter_edges.1 badJsonEnv "missing" 3 [("d", .num 1)] rfl,
   C7_json_parameter_edges.2.1 (envOf [("p", .null)]) "p" 3 [] rfl,
   C7_json_parameter_edges.2.2.1 (envOf [("p", .str "")]) "p" 3 [] rfl,
   C7_json_parameter_edges.2.2.2 badJsonEnv "q" 3 (.obj []) "\x7binvalid" rfl
     (by decide) rfl⟩

/-- C8, counterexample: for the supported resource `list` with the operation
`get` — outside its handled set, which is `search` alone — no error is
raised, but the dispatch does not fall through to a GET on the collection
endpoint with no body: it issues a POST to the search endpoint with a body. -/
theorem C8_counterexample :
    ∃ spec, executeItem listGetEnv 0 = .ok spec ∧ spec.method = "POST" ∧
      spec.endpoint = "/api/v1/CronoLists/search" ∧ spec.method ≠ "GET" ∧
      spec.body ≠ none :=
  ⟨_, rfl, rfl, rfl, by decide, by decide⟩

/-- C8, amended: the unsupported-resource error, tagged with the item index,
is raised exactly when the resource lies outside the twelve enumerated
values; for a supported resource an unhandled operation raises no error; the
resources whose branch guards on the operation (company, contact, deal,
note, task, activity, user, import) fall through to a GET on the collection
endpoint with the shared query string and no body, and pipeline issues that
GET for every operation; but list, strategy and externalProperty process
every operation as their POST search call (details for strategy's
searchDetails), so no GET fallback exists for them. -/
theorem C8_amended :
    (∀ (env : Env) (i : Nat), resourceOf env ∉ twelveResources →
      executeItem env i = .err (.unsupportedResource (resourceOf env) i)) ∧
    (∀ (env : Env) (i : Nat) (a : String) (b : Nat),
      executeItem env i = .err (.unsupportedResource a b) →
      a = resourceOf env ∧ b = i ∧ resourceOf env ∉ twelveResources) ∧
    (∀ (env : Env) (i : Nat), resourceOf env = "pipeline" →
      executeItem env i =
        .ok { method := "GET", endpoint := basePathOf env ++ "/Pipelines",
              qs := initQs env, body := none }) ∧
    (∀ (env : Env) (i : Nat) (r : String) (ops : List String) (coll : String),
      (r, (ops, coll)) ∈ guardedTable → resourceOf env = r → opOf env ∉ ops →
      executeItem env i = .ok { method := "GET", endpoint := basePathOf env ++ coll,
                                qs := initQs env, body := none }) ∧
    (∀ (env : Env) (i : Nat) (spec : RequestSpec), resourceOf env = "list" →
      executeItem env i = .ok spec →
      spec.method = "POST" ∧ spec.endpoint = basePathOf env ++ "/CronoLists/search") ∧
    (∀ (env : Env) (i : Nat) (spec : RequestSpec), resourceOf env = "strategy" →
      executeItem env i = .ok spec →
      spec.method = "POST" ∧ spec.endpoint = basePathOf env ++ "/Strategies/" ++
        (if opOf env = "searchDetails" then "details" else "search")) ∧
    (∀ (env : Env) (i : Nat) (spec : RequestSpec), resourceOf env = "externalProperty" →
      executeItem env i = .ok spec →
      spec.method = "POST" ∧
        spec.endpoint = basePathOf env ++ "/ExternalProperties/search") := by
  refine ⟨executeItem_unsupported, ?_, ?_, executeItem_fallthrough, ?_, ?_, ?_⟩
  · intro env i a b hmain
    by_cases hm : resourceOf env ∈ twelveResources
    · exact absurd hmain (executeItem_noUnsupported env i hm a b)
    · have h2 := executeItem_unsupported env i hm
      rw [hmain] at h2
      obtain ⟨ha, hb⟩ := DispatchError.unsupportedResource.inj (DispatchOutcome.err.inj h2)
      exact ⟨ha, hb, hm⟩
  · intro env i hr
    simp [executeItem, hr]
  · intro env i spec hr hok
    simp only [executeItem, hr] at hok
    simp at hok
    exact listCase_ok_shape _ _ _ _ _ _ hok
  · intro env i spec hr hok
    simp only [executeItem, hr] at hok
    simp at hok
    exact strategyCase_ok_shape _ _ _ _ _ _ _ hok
  · intro env i spec hr hok
    simp only [executeItem, hr] at hok
    simp at hok
    exact externalPropertyCase_ok_shape _ _ _ _ _ _ hok

/-- C8 witness: each amended statement applied at a concrete item — an
unrecognized resource name, a pipeline item, a task item with an unknown
operation, and the list/strategy/externalProperty items dispatched under the
unhandled operation `get`. -/
theorem C8_amended_witness :
    executeItem bogusEnv 0 = .err (.unsupportedResource (resourceOf bogusEnv) 0) ∧
    ("noSuchResource" = resourceOf bogusEnv ∧ 0 = 0 ∧
      resourceOf bogusEnv ∉ twelveResources) ∧
    executeItem pipelineEnv 0 =
      .ok { method := "GET", endpoint := basePathOf pipelineEnv ++ "/Pipelines",
            qs := initQs pipelineEnv, body := none } ∧
    executeItem taskWeirdOpEnv 0 =
      .ok { method := "GET", endpoint := basePathOf taskWeirdOpEnv ++ "/Tasks",
            qs := initQs taskWeirdOpEnv, body := none } ∧
    (listGetSpec.method = "POST" ∧
      listGetSpec.endpoint = basePathOf listGetEnv ++ "/CronoLists/search") ∧
    (strategyGetSpec.method = "POST" ∧
      strategyGetSpec.endpoint = basePathOf strategyGetEnv ++ "/Strategies/" ++
        (if opOf strategyGetEnv = "searchDetails" then "details" else "search")) ∧
    (epGetSpec.method = "POST" ∧
      epGetSpec.endpoint = basePathOf epGetEnv ++ "/ExternalProperties/search") :=
  ⟨C8_amended.1 bogusEnv 0 (by decide),
   C8_amended.2.1 bogusEnv 0 "noSuchResource" 0 rfl,
   C8_amended.2.2.1 pipelineEnv 0 rfl,
   C8_amended.2.2.2.1 taskWeirdOpEnv 0 "task" ["search", "create"] "/Tasks"
     (by decide) rfl (by decide),
   C8_amended.2.2.2.2.1 listGetEnv 0 listGetSpec rfl rfl,
   C8_amended.2.2.2.2.2.1 strategyGetEnv 0 strategyGetSpec rfl rfl,
   C8_amended.2.2.2.2.2.2 epGetEnv 0 epGetSpec rfl rfl⟩

/-- C9: the HTTP executor targets the credential base URL, defaulting to the
fixed host when it is empty, and attaches the query mapping and the body to
the outgoing options exactly when they have at least one key — an empty
query object or empty body object is never attached. -/
theorem C9_http_executor :
    (∀ (m e : String) (q : JValue) (b : Option JValue),
      (cronoApiRequest "" m e q b).url = "https://ext.crono.one" ++ e) ∧
    (∀ (c m e : String) (q : JValue) (b : Option JValue), c ≠ "" →
      (cronoApiRequest c m e q b).url = c ++ e) ∧
    (∀ (c m e : String) (q : JObject) (b : Option JValue),
      ((cronoApiRequest c m e (.obj q) b).qs = none ↔ q = []) ∧
      (q ≠ [] → (cronoApiRequest c m e (.obj q) b).qs = some (.obj q))) ∧
    (∀ (c m e : String) (q : JValue), (cronoApiRequest c m e q none).body = none) ∧
    (∀ (c m e : String) (q : JValue) (ob : JObject),
      ((cronoApiRequest c m e q (some (.obj ob))).body = none ↔ ob = []) ∧
      (ob ≠ [] → (cronoApiRequest c m e q (some (.obj ob))).body = some (.obj ob))) := by
  refine ⟨fun m e q b => ?_, fun c m e q b hc => ?_, fun c m e q b => ?_,
    fun c m e q => ?_, fun c m e q ob => ?_⟩
  · rw [cronoApiRequest_url]; simp
  · rw [cronoApiRequest_url]; simp [hc]
  · rw [cronoApiRequest_qs]
    cases q with
    | nil => simp [jsTruthy, jsKeysOf]
    | cons kv rest => simp [jsTruthy, jsKeysOf]
  · rw [cronoApiRequest_body]
  · rw [cronoApiRequest_body]
    cases ob with
    | nil => simp [jsTruthy, jsKeysOf]
    | cons kv rest => simp [jsTruthy, jsKeysOf]

/-- C9 witness: the executor statements applied to a concrete call — custom
and empty base URLs, a nonempty and an empty query object, a nonempty body
and an absent body. -/
theorem C9_http_executor_witness :
    (cronoApiRequest "" "GET" "/api/v1/Users" (.obj []) none).url =
      "https://ext.crono.one" ++ "/api/v1/Users" ∧
    (cronoApiRequest "https://example.test" "GET" "/api/v1/Users" (.obj []) none).url =
      "https://example.test" ++ "/api/v1/Users" ∧
    (cronoApiRequest "" "GET" "/u" (.obj [("a", .num 1)]) none).qs =
      some (.obj [("a", .num 1)]) ∧
    (cronoApiRequest "" "POST" "/u" (.obj []) (some (.obj [("b", .num 2)]))).body =
      some (.obj [("b", .num 2)]) :=
  ⟨C9_http_executor.1 "GET" "/api/v1/Users" (.obj []) none,
   C9_http_executor.2.1 "https://example.test" "GET" "/api/v1/Users" (.obj []) none
     (by decide),
   (C9_http_executor.2.2.1 "" "GET" "/u" [("a", .num 1)] none).2 (by simp),
   (C9_http_executor.2.2.2.2 "" "POST" "/u" (.obj []) [("b", .num 2)]).2 (by simp)⟩

/-- C10: a JSON-typed parameter whose raw string parses to valid JSON that
is neither an object nor an array (a bare number, string, boolean or null)
raises no error and is returned as the original unparsed string. -/
theorem C10_nonobject_json_string :
    ∀ (env : Env) (p : String) (i : Nat) (d : JValue) (s : String) (v : JValue),
      env.params p = some (.str s) → s ≠ "" → env.parse s = some v →
      isObjLike v = false → getJsonParameter env p i d = .ok (.str s) := by
  intro env p i d s v h hs hp hv
  cases v <;> simp_all [getJsonParameter, getParam, jsTruthy, isObjectType, isObjLike]

/-- C10 witness: the statement applied to a parameter holding the string
`42`, whose parse is the bare number 42; the extractor returns the string
`42` unchanged. -/
theorem C10_nonobject_json_string_witness :
    getJsonParameter numericJsonEnv "n" 5 (.obj []) = .ok (.str "42") :=
  C10_nonobject_json_string numericJsonEnv "n" 5 (.obj []) "42" (.num 42)
    rfl (by decide) rfl rfl

end Crono
